import Mathlib

/-!
# Verification of the gget response-normalization and temp-file layer

Shallow embedding of `src/gget/utils.py` and `src/gget/gget_diamond.py`.
Strings are modelled as `List Char`; Python string primitives (`str.find`,
slicing, `str.strip`, `str.split`, `int(...)`) are given explicit executable
models below, translated from their documented CPython semantics as the
source uses them.
-/

set_option autoImplicit false

namespace Gget

/-! ## Python string primitives -/

/-- First index at which `sub` occurs as a contiguous sublist (Python
`str.find` restricted to the found case; `none` models the `-1` result). -/
def findSub (sub : List Char) : List Char → Option Nat
  | [] => if sub = [] then some 0 else none
  | x :: xs =>
    if sub.isPrefixOf (x :: xs) then some 0
    else (findSub sub xs).map (· + 1)

/-- Python `s.find(sub, start)`: search from position `start`, absolute index. -/
def findSubFrom (s sub : List Char) (start : Nat) : Option Nat :=
  (findSub sub (s.drop start)).map (· + start)

/-- Python whitespace recognized by `str.strip()`. -/
def pyIsSpace (c : Char) : Bool :=
  c = ' ' || c = '\t' || c = '\n' || c = '\r' || c = '\x0b' || c = '\x0c'

/-- Python `str.strip()` with no argument. -/
def pyStrip (s : List Char) : List Char :=
  ((s.dropWhile pyIsSpace).reverse.dropWhile pyIsSpace).reverse

/-- Python slice `s[a:b]` for `0 ≤ a, b` (out-of-range indices clamp). -/
def pySlice (s : List Char) (a b : Nat) : List Char :=
  (s.take b).drop a

/-- Python `s.split(sep, 1)[0]`: the prefix before the first occurrence of
`sep`, or all of `s` when `sep` does not occur. -/
def splitFirstPart (s sep : List Char) : List Char :=
  match findSub sep s with
  | some i => s.take i
  | none => s

/-- Python `s.split(sep)` for a single-character separator `c`. -/
def splitChar (c : Char) : List Char → List (List Char)
  | [] => [[]]
  | x :: xs =>
    let rest := splitChar c xs
    if x = c then [] :: rest
    else
      match rest with
      | [] => [[x]]
      | y :: ys => (x :: y) :: ys

/-- Value of a digit string, most significant digit first. -/
def pyDigitsVal (s : List Char) : Nat :=
  s.foldl (fun a c => a * 10 + (c.toNat - 48)) 0

def pyAllDigits (s : List Char) : Bool :=
  s.all Char.isDigit

/-- Python `int(s)` on a string argument: surrounding whitespace is stripped,
an optional single sign is accepted, and the remainder must be a nonempty
run of decimal digits (digit-grouping underscores and non-ASCII digits are
not modelled).  `none` models the `ValueError`. -/
def pyInt (s : List Char) : Option Int :=
  let t := pyStrip s
  match t with
  | [] => none
  | c :: body0 =>
    let body := if c = '+' || c = '-' then body0 else c :: body0
    if !body.isEmpty && pyAllDigits body then
      some (if c = '-' then -(pyDigitsVal body : Int) else (pyDigitsVal body : Int))
    else none

/-! ## `parse_blast_ref_page` (`utils.py` lines 451-526) -/

/-- Outcome of `parse_blast_ref_page`: a normal return, a raised
`ValueError` with its message, or a raised `NameError` on an undefined
variable name. -/
inductive BlastOutcome where
  | ok (rid : List Char) (rtoe : Int)
  | valueError (msg : List Char)
  | nameError (missing : List Char)
deriving DecidableEq

/-- Python truthiness of the `rid` / `rtoe` variables (`None` or a string). -/
def truthy : Option (List Char) → Bool
  | none => false
  | some v => !v.isEmpty

/-- Lines 468-474 / 476-482: locate a marker, take the slice from the end of
the marker to the next newline (Python `find` returning `-1` makes the slice
stop bound `len - 1`), and strip it.  `none` models the `rid = None` case. -/
def extractValue (s marker : List Char) : Option (List Char) :=
  match findSub marker s with
  | none => none
  | some i =>
    let stop := match findSubFrom s ['\n'] i with
      | some j => j
      | none => s.length - 1
    some (pyStrip (pySlice s (i + marker.length) stop))

def ridMarker : List Char := "RID =".data
def rtoeMarker : List Char := "RTOE =".data

def noRidMsg (rtoe : List Char) : List Char :=
  "No request ID (RID) was found in the NCBI 'please wait' page. (Although estimated time to completion = ".data
    ++ rtoe ++ ".)".data

def noRtoeMsg (rid : List Char) : List Char :=
  "No estimated time to completion was found in the NCBI 'please wait' page. (Although request ID = ".data
    ++ rid ++ ".)".data

def nonIntRtoeMsg (rtoe : List Char) : List Char :=
  "A non-integer estimated time to completion was found in the NCBI 'please wait' page: '".data
    ++ rtoe ++ "'.".data

def genericLayoutMsg : List Char :=
  "No request ID and no estimated time to completion were found in the NCBI 'please wait' page.".data

def errNCBI (msg : List Char) : List Char :=
  "Error message from NCBI: ".data ++ msg

/-- `parse_blast_ref_page` on the decoded page text.  The error-message
fallback branch (lines 486-509) reads the name `s`, which is never bound in
the function (the decoded page is bound to `string`), so entering that
branch raises `NameError` at `s.find(...)`. -/
def parse_blast_ref_page (string : List Char) : BlastOutcome :=
  let rid := extractValue string ridMarker
  let rtoe := extractValue string rtoeMarker
  if !truthy rid && !truthy rtoe then
    .nameError "s".data
  else if !truthy rid then
    .valueError (noRidMsg (rtoe.getD []))
  else if !truthy rtoe then
    .valueError (noRtoeMsg (rid.getD []))
  else
    match pyInt (rtoe.getD []) with
    | some n => .ok (rid.getD []) n
    | none => .valueError (nonIntRtoeMsg (rtoe.getD []))

/-- One fallback pattern of lines 487-499: find `opener`, strip the rest of
the page, cut at `closer` and at the first newline, strip again; `some`
only when the resulting message is nonempty. -/
def tryErrorPattern (s opener closer : List Char) : Option (List Char) :=
  match findSub opener s with
  | none => none
  | some i =>
    let msg := pyStrip (s.drop (i + opener.length))
    let msg := pyStrip (splitFirstPart (splitFirstPart msg closer) ['\n'])
    if !msg.isEmpty then some msg else none

/-- Lines 486-509 of `parse_blast_ref_page` as written, with the undefined
name `s` read as the decoded page text (in `parse_blast_ref_page` itself the
branch instead raises `NameError`, see above).  Returns the message of the
`ValueError` the branch would raise. -/
def error_fallback_message (string : List Char) : List Char :=
  match tryErrorPattern string "<div class=\"error msInf\">".data "</div>".data with
  | some msg => errNCBI msg
  | none =>
  match tryErrorPattern string "<p class=\"error\">".data "</p>".data with
  | some msg => errNCBI msg
  | none =>
  match findSub "Message ID#".data string with
  | some i =>
    let msg := pyStrip (splitFirstPart (splitFirstPart (string.drop i) "<".data) ['\n'])
    errNCBI msg
  | none => genericLayoutMsg

/-- Concrete interstitial pages used to instantiate the claims. -/
def noResultsPage : List Char :=
  "<html><body><div class=\"error msInf\">No results found</div></body></html>".data

def bothMarkersPage : List Char := "html\nRID = ABC123\nRTOE = 15\nrest".data

def nonIntRtoePage : List Char := "html\nRID = ABC123\nRTOE = fifteen\nrest".data

def emptyRtoePage : List Char := "x\nRID = ABC\nRTOE = \nrest".data

def emptyRidPage : List Char := "x\nRID = \nRTOE = 15\nrest".data

/-! ## `find_latest_ens_rel` (`utils.py` lines 331-355) -/

/-- Line 350: `rel.split("/")[0].split("-")[-1]` applied to one matched
text node of the release listing. -/
def extractRelToken (rel : List Char) : List Char :=
  (splitChar '-' ((splitChar '/' rel).headD [])).getLastD []

/-- `np.array(rels).astype(int)`: elementwise integer conversion, `none`
modelling the numpy conversion error on a non-numeric entry. -/
def astypeInt : List (List Char) → Option (List Int)
  | [] => some []
  | x :: xs =>
    match pyInt x, astypeInt xs with
    | some v, some vs => some (v :: vs)
    | _, _ => none

/-- Lines 348-355 of `find_latest_ens_rel`, taking the text nodes matching
`release-` as input (the network fetch and soup matching happen before).
`none` models the numpy errors on an empty array or a non-numeric entry. -/
def find_latest_ens_rel (releases : List (List Char)) : Option Int :=
  let rels := releases.map extractRelToken
  match astypeInt rels with
  | none => none
  | some [] => none
  | some (v :: vs) => some (vs.foldl max v)

/-- A release directory entry `release-<N>/` as it appears in the listing. -/
def relEntry (d : List Char) : List Char :=
  "release-".data ++ d ++ "/".data

/-! ## Tabular data model (pandas frames as used by the source) -/

/-- A data-frame entry: a scalar string or a list of strings (the only two
shapes the source produces). -/
inductive Cell where
  | s (v : String)
  | l (vs : List String)
deriving DecidableEq

def Cell.isStr : Cell → Bool
  | .s _ => true
  | .l _ => false

structure Df where
  cols : List String
  rows : List (List Cell)
deriving DecidableEq

/-- `pd.DataFrame()`. -/
def emptyDf : Df := ⟨[], []⟩

/-- Python `s.split(sep)` on a `String`, single-character separator. -/
def pySplitStr (c : Char) (v : String) : List String :=
  (splitChar c v.data).map String.mk

/-- The lines `pd.read_csv` parses: newline-separated, blank lines skipped
(`skip_blank_lines=True` is the pandas default). -/
def csvLines (body : String) : List String :=
  ((splitChar '\n' body.data).map String.mk).filter (fun ln => !ln.isEmpty)

/-- Pad (missing trailing fields are NaN, modelled as empty-string cells)
and truncate a parsed row to the column count. -/
def padRow (n : Nat) (r : List Cell) : List Cell :=
  (r ++ List.replicate (n - r.length) (Cell.s "")).take n

inductive PdRead where
  | ok (df : Df)
  | emptyDataError
deriving DecidableEq

/-- `pd.read_csv(..., sep="\t")` with a header row: the first line names the
columns and the rest are data rows; an input with no lines raises
`EmptyDataError`. -/
def read_csv_tab (body : String) : PdRead :=
  match csvLines body with
  | [] => .emptyDataError
  | h :: t =>
    let cols := pySplitStr '\t' h
    .ok { cols := cols,
          rows := t.map (fun ln => padRow cols.length ((pySplitStr '\t' ln).map Cell.s)) }

/-- `pd.read_csv(..., sep="\t", names=headers)`: no header row, the given
names label the columns positionally. -/
def read_csv_tab_names (body : String) (names : List String) : PdRead :=
  match csvLines body with
  | [] => .emptyDataError
  | ls =>
    .ok { cols := names,
          rows := ls.map (fun ln => padRow names.length ((pySplitStr '\t' ln).map Cell.s)) }

/-- `pd.read_csv(..., sep="\t", skiprows=5)`: five leading lines are
skipped, then a header row follows. -/
def read_csv_tab_skip5 (body : String) : PdRead :=
  match (csvLines body).drop 5 with
  | [] => .emptyDataError
  | h :: t =>
    let cols := pySplitStr '\t' h
    .ok { cols := cols,
          rows := t.map (fun ln => padRow cols.length ((pySplitStr '\t' ln).map Cell.s)) }

/-! ## `tsv_to_df` (`gget_diamond.py` lines 26-49) -/

def queryNoMatchWarning : String := "Query did not result in any matches."

/-- `tsv_to_df`: parse the tsv content, with the given positional headers
when supplied, else skipping 5 preamble lines; on `EmptyDataError` log the
no-matches warning and return `None`.  Second component: the warning
messages logged. -/
def tsv_to_df (body : String) (headers : Option (List String)) :
    Option Df × List String :=
  match headers with
  | some names =>
    match read_csv_tab_names body names with
    | .emptyDataError => (none, [queryNoMatchWarning])
    | .ok df => (some df, [])
  | none =>
    match read_csv_tab_skip5 body with
    | .emptyDataError => (none, [queryNoMatchWarning])
    | .ok df => (some df, [])

/-! ## UniProt mapping parsing (`utils.py` lines 162-200 and 250-288) -/

def seqsColumns : List String :=
  ["uniprot_id", "gene_name", "organism", "sequence", "sequence_length", "query"]

def infoColumns : List String :=
  ["uniprot_id", "primary_gene_name", "synonyms", "protein_names",
   "uniprot_description", "query"]

/-- Lines 169-191 / 257-279: a 6-column frame is renamed positionally to
`names`; a 7-column frame first drops its last (isoform-mapping) column,
then is renamed. -/
def uniprot_rename (names : List String) (df : Df) : Df :=
  let df1 := if df.cols.length = 6 then { df with cols := names } else df
  if df1.cols.length = 7 then
    { cols := names, rows := df1.rows.map List.dropLast }
  else df1

/-- Label lookup `df[c]` / column position, pandas-style first match. -/
def Df.colIdx (df : Df) (c : String) : Option Nat :=
  df.cols.findIdx? (fun x => x == c)

/-- `.str.split(sep)` on one entry (on a non-string entry pandas yields NaN;
that case cannot arise after `read_csv` here). -/
def cellSplit (c : Char) : Cell → Cell
  | .s v => .l (pySplitStr c v)
  | .l vs => .l vs

/-- `df.assign(c=vals)` / `df[c] = vals` with a per-row value: replaces the
column when the label exists, else appends a new column on the right. -/
def dfAssign (df : Df) (c : String) (f : List Cell → Cell) : Df :=
  match df.colIdx c with
  | some i => { df with rows := df.rows.map (fun r => r.set i (f r)) }
  | none => { cols := df.cols ++ [c], rows := df.rows.map (fun r => r ++ [f r]) }

/-- `df.explode(c)` on one row: a list-valued entry becomes one row per
element (an empty list becomes a single NaN row); a scalar entry keeps its
single row unchanged. -/
def explodeCell (i : Nat) (r : List Cell) : List (List Cell) :=
  match r.getD i (.s "") with
  | .s _ => [r]
  | .l [] => [r.set i (.s "")]
  | .l vs => vs.map (fun v => r.set i (.s v))

def explodeRows (i : Nat) : List (List Cell) → List (List Cell)
  | [] => []
  | r :: rs => explodeCell i r ++ explodeRows i rs

/-- `df.explode(c)`. -/
def dfExplode (df : Df) (c : String) : Df :=
  match df.colIdx c with
  | some i => { df with rows := explodeRows i df.rows }
  | none => df

/-- `get_uniprot_seqs` (lines 162-200) from the decoded response body: the
frame is initiated empty, so the empty frame is returned on
`EmptyDataError` (the `except` body is the no-op expression `None`); on a
parse, columns are normalized, the comma-split of column `query` is
assigned to the NEW column `Query` (note the capital), and `explode` is
applied to the original scalar-valued `query` column.  The outer `none`
models the KeyError `df["query"]` would raise were the label missing; the
list holds the messages logged (none on this path). -/
def get_uniprot_seqs_parse (body : String) : Option (Df × List String) :=
  match read_csv_tab body with
  | .emptyDataError => some (emptyDf, [])
  | .ok df0 =>
    let df1 := uniprot_rename seqsColumns df0
    match df1.colIdx "query" with
    | none => none
    | some i =>
      let df2 := dfAssign df1 "Query" (fun r => cellSplit ',' (r.getD i (.s "")))
      some (dfExplode df2 "query", [])

/-- `get_uniprot_info` (lines 250-288) from the decoded response body:
`EmptyDataError` returns `None` (no logging); otherwise columns are
normalized and the `synonyms` column is replaced in place by its
space-split list — the frame is not exploded.  Outer `none` models a
KeyError on a missing `synonyms` label; the inner option is the Python
return value. -/
def get_uniprot_info_parse (body : String) : Option (Option Df × List String) :=
  match read_csv_tab body with
  | .emptyDataError => some (none, [])
  | .ok df0 =>
    let df1 := uniprot_rename infoColumns df0
    match df1.colIdx "synonyms" with
    | none => none
    | some i =>
      some (some (dfAssign df1 "synonyms" (fun r => cellSplit ' ' (r.getD i (.s "")))), [])

/-- Fixture bodies: one header line and one data row whose multi-valued
cell holds two delimited tokens. -/
def seqsFixtureBody : String :=
  "c1\tc2\tc3\tc4\tc5\tc6\nP1\tG1\tHuman\tMK\t2\tID1,ID2"

def infoFixtureBody : String :=
  "c1\tc2\tc3\tc4\tc5\tc6\nP1\tG1\tA B\tprot\tdesc\tID1"

/-- The 12 positional headers `diamond` passes to `tsv_to_df`. -/
def diamondHeaders : List String :=
  ["query_accession", "target_accession", "Per. Ident", "length", "mismatches",
   "gap_openings", "query_start", "query_end", "target_start", "target_end",
   "e-value", "bit_score"]

/-- A concrete seven-column frame. -/
def renameDemo7 : Df :=
  { cols := ["c1", "c2", "c3", "c4", "c5", "c6", "c7"],
    rows := [[.s "1", .s "2", .s "3", .s "4", .s "5", .s "6", .s "7"]] }

/-- The frame `read_csv` yields on `seqsFixtureBody`. -/
def seqsFixtureDf : Df :=
  { cols := ["c1", "c2", "c3", "c4", "c5", "c6"],
    rows := [[.s "P1", .s "G1", .s "Human", .s "MK", .s "2", .s "ID1,ID2"]] }

/-! ## `diamond` and the temp-file lifecycle (`gget_diamond.py` lines 52-180) -/

/-- The working directory, modelled as the list of file names present. -/
def addFile (fs : List String) (f : String) : List String :=
  if f ∈ fs then fs else fs ++ [f]

/-- A deletion guarded by `os.path.exists`. -/
def removeIfExists (fs : List String) (f : String) : List String :=
  if f ∈ fs then fs.erase f else fs

/-- `f"tmp_{RANDOM_ID}.fa"`, the staged input fasta (line 65). -/
def inputFaName (rid : String) : String := "tmp_" ++ rid ++ ".fa"

/-- `f"tmp_{RANDOM_ID}_out.tsv"`, the default output target (line 124). -/
def tmpOutName (rid : String) : String := "tmp_" ++ rid ++ "_out.tsv"

/-- `create_input_file` (lines 52-69): stage the sequences into the fasta
file and return its name. -/
def create_input_file (rid : String) (fs : List String) : String × List String :=
  let name := inputFaName rid
  (name, addFile fs name)

/-- `remove_temp_files` (lines 78-95).  The third existence check tests the
literal path `"tmp_{RANDOM_ID}.fa"` — the string on line 94 carries no
f-prefix — so it never names the staged fasta `tmp_<uuid>.fa`. -/
def remove_temp_files (rid : String) (fs : List String) : List String :=
  let fs1 := removeIfExists fs (tmpOutName rid)
  let fs2 := removeIfExists fs1 "reference.dmnd"
  removeIfExists fs2 "tmp_\x7bRANDOM_ID\x7d.fa"

/-- Lines 124-133 and 162: first component, the path handed to the
aligner's `-o` flag; second, the path later handed to `tsv_to_df`.  With
`out=None` both are the temporary default; with a user-supplied `out` the
command string uses `f"{out}.tsv"` while the `output` variable is rebound
to `out` itself. -/
def diamond_paths (rid : String) (out : Option String) : String × String :=
  let output := tmpOutName rid
  match out with
  | none => (output, output)
  | some o => (o ++ ".tsv", o)

/-- The working directory across one `diamond` invocation (lines 98-180):
the input fasta is staged; a successful pipeline writes `reference.dmnd`
and its `-o` target, after which `tsv_to_df` and then `remove_temp_files`
run; on a non-zero exit status the function logs an error and returns with
no cleanup (whatever partial artifacts the failed pipeline left are not
modelled — the staged fasta is present either way). -/
def diamond_fs (rid : String) (out : Option String) (exitOk : Bool)
    (fs : List String) : List String :=
  let staged := create_input_file rid fs
  if exitOk then
    remove_temp_files rid
      (addFile (addFile staged.2 "reference.dmnd") (diamond_paths rid out).1)
  else
    staged.2

/-- A uuid4-shaped run identifier. -/
def demoRid : String := "1b9d6bcd-bbfd-4b2d-9b5d-ab8dfbbd4bed"

/-! ## Release-bound checks (`utils.py` lines 358-448) -/

def ensemblPubUrl : String := "http://ftp.ensembl.org/pub/"

def relTooHighMsg : String :=
  "Defined Ensembl release number cannot be greater than latest release."

/-- `gget_species_options` (lines 358-399) up to its second network call,
given the latest release its first lookup returned: components are the GET
URLs issued in order and the raised error, if any.  A user release greater
than the latest raises before the mysql listing URL is requested. -/
def gget_species_options_requests (latest : Int) (release : Option Int) :
    List String × Option String :=
  let reqs := [ensemblPubUrl]
  match release with
  | some r =>
    if latest < r then (reqs, some relTooHighMsg)
    else (reqs ++ ["http://ftp.ensembl.org/pub/release-" ++ toString r ++ "/mysql/"],
      none)
  | none =>
    (reqs ++ ["http://ftp.ensembl.org/pub/release-" ++ toString latest ++ "/mysql/"],
      none)

/-- `ref_species_options` (lines 402-448), same shape.  When `which` names
neither `gtf` nor `dna`/`cdna` the local `url` is never assigned and
`requests.get(url)` raises `NameError`; the release bound is checked before
any of that. -/
def ref_species_options_requests (latest : Int) (which : String)
    (release : Option Int) : List String × Option String :=
  let reqs := [ensemblPubUrl]
  let step : Int → List String × Option String := fun rel =>
    let url : Option String :=
      if which == "gtf"
      then some ("http://ftp.ensembl.org/pub/release-" ++ toString rel ++ "/gtf/")
      else none
    let url : Option String :=
      if which == "dna" || which == "cdna"
      then some ("http://ftp.ensembl.org/pub/release-" ++ toString rel ++ "/fasta/")
      else url
    match url with
    | some u => (reqs ++ [u], none)
    | none => (reqs, some "NameError: name 'url' is not defined")
  match release with
  | some r => if latest < r then (reqs, some relTooHighMsg) else step r
  | none => step latest

end Gget

namespace Gget

theorem pyInt_nil : pyInt ([] : List Char) = none := rfl

/-- C3: for a page with neither marker, the code enters the error-message
fallback, whose every branch reads the undefined name `s`: it raises
`NameError`, not the `ValueError` carrying the extracted message that the
claim describes.  The same lines read on the decoded page text (as the
fallback chain is evidently meant to run) would extract the
"No results found" message from the error-classed div. -/
theorem blast_fallback_raises_nameError :
    parse_blast_ref_page noResultsPage = .nameError "s".data
    ∧ error_fallback_message noResultsPage = errNCBI "No results found".data
    ∧ findSub ridMarker noResultsPage = none
    ∧ findSub rtoeMarker noResultsPage = none := by
  exact ⟨by decide, by decide, by decide, by decide⟩

/-- C5: whenever both literal markers are found, `parse_blast_ref_page`
returns the pair of the trimmed marker values, with the completion estimate
converted by `int(...)`; when the estimate is not a valid integer it raises
citing the literal value.  On the concrete pages: `RID = ABC123` with
`RTOE = 15` yields `(ABC123, 15)`, and `RTOE = fifteen` raises citing
"fifteen". -/
theorem blast_both_markers_parse :
    (∀ s r t n, extractValue s ridMarker = some r → r ≠ [] →
      extractValue s rtoeMarker = some t → pyInt t = some n →
      parse_blast_ref_page s = .ok r n)
    ∧ (∀ s r t, extractValue s ridMarker = some r → r ≠ [] →
      extractValue s rtoeMarker = some t → t ≠ [] → pyInt t = none →
      parse_blast_ref_page s = .valueError (nonIntRtoeMsg t))
    ∧ parse_blast_ref_page bothMarkersPage = .ok "ABC123".data 15
    ∧ parse_blast_ref_page nonIntRtoePage
        = .valueError (nonIntRtoeMsg "fifteen".data) := by
  refine ⟨?_, ?_, by decide, by decide⟩
  · intro s r t n h1 hr h2 h3
    have ht : t ≠ [] := by
      intro e
      rw [e, pyInt_nil] at h3
      exact Option.noConfusion h3
    cases r with
    | nil => exact absurd rfl hr
    | cons a r =>
      cases t with
      | nil => exact absurd rfl ht
      | cons b t =>
        simp [parse_blast_ref_page, h1, h2, h3, truthy]
  · intro s r t h1 hr h2 ht h3
    cases r with
    | nil => exact absurd rfl hr
    | cons a r =>
      cases t with
      | nil => exact absurd rfl ht
      | cons b t =>
        simp [parse_blast_ref_page, h1, h2, h3, truthy]

theorem blast_both_markers_parse_witness :
    parse_blast_ref_page bothMarkersPage = .ok "ABC123".data 15 :=
  blast_both_markers_parse.1 bothMarkersPage "ABC123".data "15".data 15
    (by decide) (by decide) (by decide) (by decide)

/-- C10: a marker whose value is empty after trimming is treated as absent:
a nonempty RID with an empty RTOE raises the no-estimate error citing the
RID (never reaching the integer conversion), and an empty RID with a
nonempty RTOE raises the no-request-ID error citing the RTOE. -/
theorem blast_empty_value_treated_absent :
    (∀ s r, extractValue s ridMarker = some r → r ≠ [] →
      extractValue s rtoeMarker = some [] →
      parse_blast_ref_page s = .valueError (noRtoeMsg r))
    ∧ (∀ s t, extractValue s ridMarker = some [] →
      extractValue s rtoeMarker = some t → t ≠ [] →
      parse_blast_ref_page s = .valueError (noRidMsg t)) := by
  constructor
  · intro s r h1 hr h2
    cases r with
    | nil => exact absurd rfl hr
    | cons a r =>
      simp [parse_blast_ref_page, h1, h2, truthy]
  · intro s t h1 h2 ht
    cases t with
    | nil => exact absurd rfl ht
    | cons b t =>
      simp [parse_blast_ref_page, h1, h2, truthy]

theorem blast_empty_value_treated_absent_witness :
    parse_blast_ref_page emptyRtoePage = .valueError (noRtoeMsg "ABC".data) :=
  blast_empty_value_treated_absent.1 emptyRtoePage "ABC".data
    (by decide) (by decide) (by decide)

theorem splitChar_ne_nil (c : Char) : ∀ s : List Char, splitChar c s ≠ []
  | [] => by simp [splitChar]
  | x :: xs => by
    simp only [splitChar]
    by_cases hx : x = c
    · simp [hx]
    · rw [if_neg hx]
      cases h : splitChar c xs <;> simp

theorem headD_splitChar (c : Char) :
    ∀ s : List Char, (splitChar c s).headD [] = s.takeWhile (· != c)
  | [] => rfl
  | x :: xs => by
    simp only [splitChar, List.takeWhile]
    by_cases hx : x = c
    · simp [hx]
    · rw [if_neg hx]
      cases h : splitChar c xs with
      | nil => exact absurd h (splitChar_ne_nil c xs)
      | cons y ys =>
        have ih := headD_splitChar c xs
        rw [h] at ih
        simp only [List.headD_cons] at ih
        have hb : (x != c) = true := by simpa using hx
        simp [hx, ih, hb]

theorem getLastD_irrel {α : Type} :
    ∀ (l : List α), l ≠ [] → ∀ d₁ d₂ : α, l.getLastD d₁ = l.getLastD d₂
  | [], h, _, _ => absurd rfl h
  | [_], _, _, _ => rfl
  | _ :: y :: l, _, d₁, d₂ => by
    simp only [List.getLastD_cons]

theorem two_le_length_splitChar_append (c : Char) :
    ∀ s t : List Char, 2 ≤ (splitChar c (s ++ c :: t)).length
  | [], t => by
    have e : splitChar c ([] ++ c :: t) = [] :: splitChar c t := by
      simp [splitChar]
    rw [e]
    cases h : splitChar c t with
    | nil => exact absurd h (splitChar_ne_nil c t)
    | cons y ys => simp
  | x :: s, t => by
    simp only [List.cons_append, splitChar]
    by_cases hx : x = c
    · rw [if_pos hx]
      cases h : splitChar c (s ++ c :: t) with
      | nil => exact absurd h (splitChar_ne_nil c _)
      | cons y ys => simp
    · rw [if_neg hx]
      have h2 := two_le_length_splitChar_append c s t
      cases h : splitChar c (s ++ c :: t) with
      | nil => exact absurd h (splitChar_ne_nil c _)
      | cons y ys =>
        rw [h] at h2
        simpa using h2

theorem getLastD_splitChar_append (c : Char) :
    ∀ s t : List Char,
      (splitChar c (s ++ c :: t)).getLastD [] = (splitChar c t).getLastD []
  | [], t => by
    have e : splitChar c ([] ++ c :: t) = [] :: splitChar c t := by
      simp [splitChar]
    rw [e, List.getLastD_cons]
  | x :: s, t => by
    simp only [List.cons_append, splitChar]
    by_cases hx : x = c
    · rw [if_pos hx, List.getLastD_cons]
      rw [← getLastD_splitChar_append c s t]
      exact getLastD_irrel _ (splitChar_ne_nil c _) _ _
    · rw [if_neg hx]
      have h2 := two_le_length_splitChar_append c s t
      cases h : splitChar c (s ++ c :: t) with
      | nil => exact absurd h (splitChar_ne_nil c _)
      | cons y ys =>
        rw [h] at h2
        cases ys with
        | nil => simp at h2
        | cons z zs =>
          have ih := getLastD_splitChar_append c s t
          rw [h] at ih
          rw [List.getLastD_cons, List.getLastD_cons] at ih ⊢
          rw [← ih]

theorem splitChar_of_not_mem (c : Char) :
    ∀ s : List Char, c ∉ s → splitChar c s = [s]
  | [], _ => rfl
  | x :: xs, h => by
    have hx : ¬x = c := fun e => h (e ▸ List.mem_cons_self x xs)
    simp only [splitChar, if_neg hx,
      splitChar_of_not_mem c xs (fun m => h (List.mem_cons_of_mem x m))]

theorem takeWhile_append_sep (c : Char) :
    ∀ l r : List Char, (∀ a ∈ l, a ≠ c) →
      (l ++ c :: r).takeWhile (· != c) = l
  | [], r, _ => by simp
  | x :: l, r, h => by
    have hx : x ≠ c := h x (List.mem_cons_self x l)
    simp only [List.cons_append, List.takeWhile_cons]
    simp [hx, takeWhile_append_sep c l r (fun a ha => h a (List.mem_cons_of_mem x ha))]

theorem extractRelToken_relEntry (d : List Char)
    (h7 : '/' ∉ d) (h45 : '-' ∉ d) :
    extractRelToken (relEntry d) = d := by
  unfold extractRelToken relEntry
  have e1 : "release-".data ++ d ++ "/".data = ("release-".data ++ d) ++ '/' :: [] := by
    simp
  rw [e1, headD_splitChar, takeWhile_append_sep]
  · have e2 : "release-".data ++ d = "release".data ++ '-' :: d := by
      have : "release-".data = "release".data ++ ['-'] := rfl
      rw [this, List.append_assoc]
      rfl
    rw [e2, getLastD_splitChar_append, splitChar_of_not_mem _ _ h45]
    rfl
  · intro a ha
    rcases List.mem_append.1 ha with hm | hm
    · fin_cases hm <;> decide
    · exact fun e => h7 (e ▸ hm)

theorem digit_not_space {c : Char} (h : c.isDigit = true) : pyIsSpace c = false := by
  cases e : pyIsSpace c
  · rfl
  · exfalso
    unfold pyIsSpace at e
    simp only [Bool.or_eq_true, decide_eq_true_eq] at e
    rcases e with ((((e | e) | e) | e) | e) | e <;> subst e <;>
      exact absurd h (by decide)

theorem dropWhile_eq_self_of {α : Type} (p : α → Bool) :
    ∀ l : List α, (∀ a ∈ l, p a = false) → l.dropWhile p = l
  | [], _ => rfl
  | x :: xs, h => by
    simp [List.dropWhile_cons, h x (List.mem_cons_self x xs)]

theorem pyStrip_digits (d : List Char) (h : ∀ c ∈ d, c.isDigit = true) :
    pyStrip d = d := by
  unfold pyStrip
  rw [dropWhile_eq_self_of _ _ (fun a ha => digit_not_space (h a ha)),
    dropWhile_eq_self_of _ _
      (fun a ha => digit_not_space (h a (List.mem_reverse.1 ha))),
    List.reverse_reverse]

theorem pyInt_digits (d : List Char) (hne : d ≠ [])
    (hd : pyAllDigits d = true) :
    pyInt d = some (pyDigitsVal d : Int) := by
  have hall : ∀ c ∈ d, c.isDigit = true := by
    intro c hc
    exact List.all_eq_true.1 hd c hc
  unfold pyInt
  rw [pyStrip_digits d hall]
  cases d with
  | nil => exact absurd rfl hne
  | cons c body0 =>
    have hc : c.isDigit = true := hall c (List.mem_cons_self c body0)
    have hplus : ¬c = '+' := fun e => absurd hc (by rw [e]; decide)
    have hminus : ¬c = '-' := fun e => absurd hc (by rw [e]; decide)
    simp [hplus, hminus, hd]

theorem astypeInt_digits :
    ∀ ds : List (List Char), (∀ d ∈ ds, d ≠ [] ∧ pyAllDigits d = true) →
      astypeInt ds = some (ds.map (fun d => (pyDigitsVal d : Int)))
  | [], _ => rfl
  | d :: ds, h => by
    have hd := h d (List.mem_cons_self d ds)
    simp only [astypeInt, pyInt_digits d hd.1 hd.2,
      astypeInt_digits ds (fun x hx => h x (List.mem_cons_of_mem d hx)), List.map_cons]

theorem digit_entries_wellformed {d : List Char} (hd : pyAllDigits d = true) :
    '/' ∉ d ∧ '-' ∉ d := by
  constructor
  · intro m
    exact absurd (List.all_eq_true.1 hd _ m) (by decide)
  · intro m
    exact absurd (List.all_eq_true.1 hd _ m) (by decide)

/-- C7: `find_latest_ens_rel` returns the numeric (not lexicographic)
maximum of the release numbers in the listing: on any nonempty listing of
`release-<N>/` entries it returns the maximum of the `N`s, and on the
fixture `release-100/`, `release-99/`, `release-7/` it returns 100. -/
theorem find_latest_is_numeric_max :
    (∀ ds : List (List Char), ds ≠ [] →
      (∀ d ∈ ds, d ≠ [] ∧ pyAllDigits d = true) →
      find_latest_ens_rel (ds.map relEntry)
        = (ds.map (fun d => (pyDigitsVal d : Int))).max?)
    ∧ find_latest_ens_rel
        ["release-100/".data, "release-99/".data, "release-7/".data]
        = some 100 := by
  constructor
  · intro ds hne h
    simp only [find_latest_ens_rel]
    rw [List.map_map]
    have emap : ds.map (extractRelToken ∘ relEntry) = ds := by
      rw [List.map_congr_left (g := id) ?_, List.map_id]
      intro d hd
      have hw := digit_entries_wellformed (h d hd).2
      exact extractRelToken_relEntry d hw.1 hw.2
    rw [emap, astypeInt_digits ds h]
    cases ds with
    | nil => exact absurd rfl hne
    | cons d ds => rfl
  · decide

theorem find_latest_is_numeric_max_witness :
    find_latest_ens_rel
      (["100".data, "99".data, "7".data].map relEntry) = some 100 := by
  have := find_latest_is_numeric_max.1 ["100".data, "99".data, "7".data]
    (by decide) (by decide)
  rw [this]
  decide

theorem uniprot_rename_six (names : List String) (df : Df)
    (hn : names.length = 6) (h : df.cols.length = 6) :
    uniprot_rename names df = { cols := names, rows := df.rows } := by
  unfold uniprot_rename
  rw [if_pos h, if_neg (by simp [hn])]

theorem uniprot_rename_seven (names : List String) (df : Df)
    (h : df.cols.length = 7) :
    uniprot_rename names df
      = { cols := names, rows := df.rows.map List.dropLast } := by
  unfold uniprot_rename
  rw [if_neg (show ¬df.cols.length = 6 by omega), if_pos h]

/-- C6: a frame with exactly 6 columns is renamed positionally to the
canonical 6 names with its rows untouched, and a frame with exactly 7
columns first loses exactly its last (isoform-mapping) column from every
row and is then renamed to the same canonical names — for both the
`get_uniprot_seqs` and the `get_uniprot_info` name sets. -/
theorem uniprot_rename_canonical (df : Df)
    (h : df.cols.length = 6 ∨ df.cols.length = 7) :
    ((uniprot_rename seqsColumns df).cols = seqsColumns
      ∧ (uniprot_rename infoColumns df).cols = infoColumns)
    ∧ (df.cols.length = 6 →
        (uniprot_rename seqsColumns df).rows = df.rows
        ∧ (uniprot_rename infoColumns df).rows = df.rows)
    ∧ (df.cols.length = 7 →
        (uniprot_rename seqsColumns df).rows = df.rows.map List.dropLast
        ∧ (uniprot_rename infoColumns df).rows = df.rows.map List.dropLast) := by
  rcases h with h | h
  · rw [uniprot_rename_six seqsColumns df rfl h,
      uniprot_rename_six infoColumns df rfl h]
    exact ⟨⟨rfl, rfl⟩, fun _ => ⟨rfl, rfl⟩, fun h7 => by omega⟩
  · rw [uniprot_rename_seven seqsColumns df h,
      uniprot_rename_seven infoColumns df h]
    exact ⟨⟨rfl, rfl⟩, fun h6 => by omega, fun _ => ⟨rfl, rfl⟩⟩

theorem uniprot_rename_canonical_witness :
    (uniprot_rename seqsColumns renameDemo7).cols = seqsColumns
    ∧ (uniprot_rename seqsColumns renameDemo7).rows
        = renameDemo7.rows.map List.dropLast :=
  ⟨(uniprot_rename_canonical renameDemo7 (Or.inr (by decide))).1.1,
   ((uniprot_rename_canonical renameDemo7 (Or.inr (by decide))).2.2 (by decide)).1⟩

theorem length_padRow (n : Nat) (r : List Cell) : (padRow n r).length = n := by
  unfold padRow
  rw [List.length_take, List.length_append, List.length_replicate]
  omega

theorem isStr_mem_padRow (n : Nat) (r : List Cell)
    (h : ∀ cell ∈ r, cell.isStr = true) :
    ∀ cell ∈ padRow n r, cell.isStr = true := by
  intro cell hc
  have hc2 := List.take_subset _ _ hc
  rcases List.mem_append.1 hc2 with hm | hm
  · exact h cell hm
  · rw [List.eq_of_mem_replicate hm]
    rfl

theorem read_csv_rows_wf (body : String) (df : Df)
    (h : read_csv_tab body = .ok df) :
    ∀ r ∈ df.rows, r.length = df.cols.length ∧ ∀ cell ∈ r, cell.isStr = true := by
  unfold read_csv_tab at h
  cases e : csvLines body with
  | nil =>
    rw [e] at h
    exact PdRead.noConfusion h
  | cons hd t =>
    rw [e] at h
    injection h with h
    subst h
    intro r hr
    simp only [List.mem_map] at hr
    obtain ⟨ln, _, rfl⟩ := hr
    refine ⟨length_padRow _ _, isStr_mem_padRow _ _ ?_⟩
    intro cell hc
    simp only [List.mem_map] at hc
    obtain ⟨v, _, rfl⟩ := hc
    rfl

theorem getD_isStr : ∀ (r : List Cell) (i : Nat),
    (∀ cell ∈ r, cell.isStr = true) → (r.getD i (Cell.s "")).isStr = true
  | [], _, _ => rfl
  | x :: _, 0, h => h x (List.mem_cons_self _ _)
  | _ :: r, i + 1, h =>
    getD_isStr r i (fun c hc => h c (List.mem_cons_of_mem _ hc))

theorem getD_append_left :
    ∀ (r s : List Cell) (i : Nat), i < r.length → ∀ d : Cell,
      (r ++ s).getD i d = r.getD i d
  | [], _, _, h, _ => absurd h (by simp)
  | _ :: _, _, 0, _, _ => rfl
  | _ :: r, s, i + 1, h, d => getD_append_left r s i (by simpa using h) d

theorem explodeRows_scalar_length (i : Nat) :
    ∀ rows : List (List Cell),
      (∀ r ∈ rows, ((r.getD i (Cell.s "")).isStr = true)) →
      (explodeRows i rows).length = rows.length
  | [], _ => rfl
  | r :: rs, h => by
    have hr := h r (List.mem_cons_self _ _)
    have hcell : explodeCell i r = [r] := by
      cases e : r.getD i (Cell.s "") with
      | s v =>
        unfold explodeCell
        rw [e]
      | l vs =>
        rw [e] at hr
        simp [Cell.isStr] at hr
    have ih := explodeRows_scalar_length i rs
      (fun a ha => h a (List.mem_cons_of_mem _ ha))
    show (explodeCell i r ++ explodeRows i rs).length = rs.length + 1
    rw [hcell]
    simp only [List.length_append, List.length_cons, List.length_nil, ih]
    omega

theorem colIdx_mk (cols : List String) (rows : List (List Cell)) (c : String) :
    Df.colIdx ⟨cols, rows⟩ c = cols.findIdx? (fun x => x == c) := rfl

theorem rename_wf (names : List String) (hn : names.length = 6) (df : Df)
    (hw : ∀ r ∈ df.rows, r.length = df.cols.length ∧ ∀ cell ∈ r, cell.isStr = true)
    (hc : df.cols.length = 6 ∨ df.cols.length = 7) :
    ∃ rows2, uniprot_rename names df = { cols := names, rows := rows2 }
      ∧ rows2.length = df.rows.length
      ∧ ∀ r ∈ rows2, r.length = 6 ∧ ∀ cell ∈ r, cell.isStr = true := by
  rcases hc with h | h
  · refine ⟨df.rows, uniprot_rename_six names df hn h, rfl, ?_⟩
    intro r hr
    exact ⟨(hw r hr).1.trans h, (hw r hr).2⟩
  · refine ⟨df.rows.map List.dropLast, uniprot_rename_seven names df h, by simp, ?_⟩
    intro r hr
    simp only [List.mem_map] at hr
    obtain ⟨r0, hr0, rfl⟩ := hr
    constructor
    · rw [List.length_dropLast, (hw r0 hr0).1, h]
    · intro cell hc2
      exact (hw r0 hr0).2 cell (List.dropLast_subset _ hc2)

/-- C2 amended: neither mapping parser multiplies rows.  `get_uniprot_seqs`
assigns the comma-split list to the new column `Query` while `explode`
targets the original scalar-valued `query` column, so the row count is
unchanged; `get_uniprot_info` only replaces the `synonyms` cell by an
in-cell list and never explodes.  A row whose multi-valued cell holds N
delimited tokens therefore yields exactly one output row, not N. -/
theorem uniprot_no_explosion (body : String) (df : Df)
    (hp : read_csv_tab body = .ok df)
    (hc : df.cols.length = 6 ∨ df.cols.length = 7) :
    (get_uniprot_seqs_parse body).map (fun p => p.1.rows.length)
        = some df.rows.length
    ∧ (get_uniprot_info_parse body).map (fun p => p.1.map (fun d => d.rows.length))
        = some (some df.rows.length) := by
  have hw := read_csv_rows_wf body df hp
  constructor
  · obtain ⟨rows2, he, hlen, hwf⟩ := rename_wf seqsColumns rfl df hw hc
    have hq : Df.colIdx { cols := seqsColumns, rows := rows2 } "query" = some 5 := rfl
    have hQ : Df.colIdx { cols := seqsColumns, rows := rows2 } "Query" = none := rfl
    simp only [get_uniprot_seqs_parse, hp, he, hq, hQ, dfAssign, dfExplode,
      colIdx_mk]
    simp only [Option.map_some', Option.some.injEq]
    have hsc : ∀ r2 ∈ List.map
        (fun r => r ++ [cellSplit ',' (r.getD 5 (Cell.s ""))]) rows2,
        ((r2.getD 5 (Cell.s "")).isStr = true) := by
      intro r2 hr2
      simp only [List.mem_map] at hr2
      obtain ⟨r, hr, rfl⟩ := hr2
      rw [getD_append_left r _ 5 (by rw [(hwf r hr).1]; omega) _]
      exact getD_isStr r 5 (hwf r hr).2
    have h5 : List.findIdx? (fun x => x == "query") (seqsColumns ++ ["Query"])
        = some 5 := by decide
    simp only [h5]
    rw [explodeRows_scalar_length 5 _ hsc, List.length_map, hlen]
  · obtain ⟨rows2, he, hlen, hwf⟩ := rename_wf infoColumns rfl df hw hc
    have hs : Df.colIdx { cols := infoColumns, rows := rows2 } "synonyms"
        = some 2 := rfl
    simp only [get_uniprot_info_parse, hp, he, hs, dfAssign, colIdx_mk]
    simp only [Option.map_some', Option.some.injEq, List.length_map]
    rw [hlen]

theorem uniprot_no_explosion_witness :
    (get_uniprot_seqs_parse seqsFixtureBody).map (fun p => p.1.rows.length)
        = some 1
    ∧ (get_uniprot_info_parse seqsFixtureBody).map
        (fun p => p.1.map (fun d => d.rows.length)) = some (some 1) :=
  uniprot_no_explosion seqsFixtureBody seqsFixtureDf (by decide)
    (Or.inl (by decide))

/-- C2 counterexample: on a parsed mapping row whose multi-valued cell
holds two delimited tokens, the output is a single row — `get_uniprot_seqs`
leaves `query` as the unsplit scalar `"ID1,ID2"` (the split lands in the
new `Query` column), and `get_uniprot_info` keeps both synonyms in one
in-cell list — where the claim demands two rows. -/
theorem uniprot_explode_counterexample :
    (pySplitStr ',' "ID1,ID2").length = 2
    ∧ get_uniprot_seqs_parse seqsFixtureBody = some
        ({ cols := seqsColumns ++ ["Query"],
           rows := [[.s "P1", .s "G1", .s "Human", .s "MK", .s "2",
                     .s "ID1,ID2", .l ["ID1", "ID2"]]] }, [])
    ∧ (pySplitStr ' ' "A B").length = 2
    ∧ get_uniprot_info_parse infoFixtureBody = some (some
        { cols := infoColumns,
          rows := [[.s "P1", .s "G1", .l ["A", "B"], .s "prot", .s "desc",
                    .s "ID1"]] }, []) :=
  ⟨by decide, by decide, by decide, by decide⟩

/-- C9 counterexample: on an empty response body `get_uniprot_seqs` returns
its pre-initialized empty frame and `get_uniprot_info` returns `None`, but
neither logs anything (the `except` branch of the former is the no-op
expression `None`, that of the latter a bare `return None`) — the claim's
required informational/warning log accompanies only `tsv_to_df`. -/
theorem uniprot_empty_body_no_log :
    get_uniprot_seqs_parse "" = some (emptyDf, [])
    ∧ get_uniprot_info_parse "" = some (none, []) :=
  ⟨by decide, by decide⟩

/-- C9 amended: an empty response body yields an explicit empty-result
sentinel and never a raised parse error: `tsv_to_df` returns `None` and
logs the no-matches warning (in both header modes), `get_uniprot_seqs`
returns an empty frame and `get_uniprot_info` returns `None`, both without
logging. -/
theorem empty_body_sentinel :
    tsv_to_df "" (some diamondHeaders) = (none, [queryNoMatchWarning])
    ∧ tsv_to_df "" none = (none, [queryNoMatchWarning])
    ∧ get_uniprot_seqs_parse "" = some (emptyDf, [])
    ∧ get_uniprot_info_parse "" = some (none, []) :=
  ⟨by decide, by decide, by decide, by decide⟩

/-- C1: temporary files leak on both paths.  After a successful run from an
empty working directory the output tsv and the reference index are deleted
but the staged input fasta remains (line 94 tests the literal name
`tmp_{RANDOM_ID}.fa` instead of the formatted one); after a failed run
(non-zero exit status) `diamond` returns before any cleanup and the staged
fasta likewise remains. -/
theorem diamond_temp_file_leak :
    inputFaName demoRid ∈ diamond_fs demoRid none true []
    ∧ tmpOutName demoRid ∉ diamond_fs demoRid none true []
    ∧ "reference.dmnd" ∉ diamond_fs demoRid none true []
    ∧ diamond_fs demoRid none false [] = [inputFaName demoRid] :=
  ⟨by decide, by decide, by decide, by decide⟩

/-- C4: with a user-specified `out`, the aligner command is directed to
write `out ++ ".tsv"` while `tsv_to_df` is invoked on `out` — two distinct
paths, so the file parsed is not the file the run wrote; with `out=None`
the two coincide. -/
theorem diamond_out_path_mismatch :
    (diamond_paths demoRid (some "myresults")).1 = "myresults.tsv"
    ∧ (diamond_paths demoRid (some "myresults")).2 = "myresults"
    ∧ (diamond_paths demoRid (some "myresults")).1
        ≠ (diamond_paths demoRid (some "myresults")).2
    ∧ (diamond_paths demoRid none).1 = (diamond_paths demoRid none).2 :=
  ⟨by decide, by decide, by decide, by decide⟩

/-- C8: a caller-supplied release strictly greater than the latest
available release makes both `gget_species_options` and
`ref_species_options` raise the descriptive error with only the
latest-release lookup performed — the database/species listing URL is
never requested. -/
theorem release_bound_checked_before_request
    (latest r : Int) (which : String) (h : latest < r) :
    gget_species_options_requests latest (some r)
        = ([ensemblPubUrl], some relTooHighMsg)
    ∧ ref_species_options_requests latest which (some r)
        = ([ensemblPubUrl], some relTooHighMsg) := by
  constructor
  · simp [gget_species_options_requests, h]
  · simp [ref_species_options_requests, h]

theorem release_bound_checked_before_request_witness :
    gget_species_options_requests 110 (some 111)
        = ([ensemblPubUrl], some relTooHighMsg)
    ∧ ref_species_options_requests 110 "gtf" (some 111)
        = ([ensemblPubUrl], some relTooHighMsg) :=
  release_bound_checked_before_request 110 111 "gtf" (by decide)

end Gget
